import Mathlib

/-!
Verification of the Cloudinary storage adapter
(`src/utils/cloudinary_storage.py`) against its natural-language
specification.

The adapter is embedded shallowly: each Python method becomes a Lean
function over `String`, with the remote Cloudinary API (upload, destroy,
resource lookup, URL building) passed in as an explicit function
parameter returning `Except CloudinaryError _`, so that the try/except
structure of the Python code is mirrored by explicit `match` on the
result.  Python string primitives (`os.path.splitext`, `str.split`,
`str.startswith`, the `in` substring test, `str.lstrip`) are embedded
first, faithfully to their Python semantics.
-/

/-- Index of the last occurrence of `c` in `l` (Python `str.rfind`,
restricted to the found case). -/
def lastIdxOf (l : List Char) (c : Char) : Option Nat :=
  match l with
  | [] => none
  | a :: rest =>
    match lastIdxOf rest c with
    | some i => some (i + 1)
    | none => if a = c then some 0 else none

/-- The index at which `os.path.splitext` splits `l`, when it splits at
all: the index of the last dot, provided it comes after the last path
separator and the base name has a non-dot character before it
(mirrors CPython `posixpath.splitext`). -/
def splitextDot (l : List Char) : Option Nat :=
  match lastIdxOf l '.' with
  | none => none
  | some d =>
    match lastIdxOf l '/' with
    | none =>
      if (l.take d).any (· != '.') then some d else none
    | some sp =>
      if sp + 1 ≤ d then
        if ((l.drop (sp + 1)).take (d - (sp + 1))).any (· != '.') then some d
        else none
      else none

/-- `os.path.splitext(s)[0]` on the character list. -/
def splitextStemL (l : List Char) : List Char :=
  match splitextDot l with
  | none => l
  | some d => l.take d

/-- `os.path.splitext(s)[1]` on the character list. -/
def splitextExtL (l : List Char) : List Char :=
  match splitextDot l with
  | none => []
  | some d => l.drop d

/-- `os.path.splitext(s)[0]` : the name with its extension removed. -/
def splitextStem (s : String) : String := ⟨splitextStemL s.data⟩

/-- `os.path.splitext(s)[1]` : the extension, dot included ("" if none). -/
def splitextExt (s : String) : String := ⟨splitextExtL s.data⟩

/-- `pre` is a prefix of `l` (character-level, structural so that the
kernel can evaluate it). -/
def isPrefixL : List Char → List Char → Bool
  | [], _ => true
  | _ :: _, [] => false
  | a :: pa, b :: lb => a == b && isPrefixL pa lb

/-- `pat` occurs as a contiguous substring of `l` (Python `pat in s`). -/
def containsSubL : List Char → List Char → Bool
  | [], pat => pat == []
  | l@(_ :: rest), pat => isPrefixL pat l || containsSubL rest pat

/-- Python `s.split(c)` for a one-character separator. -/
def splitChar (c : Char) : List Char → List (List Char)
  | [] => [[]]
  | a :: rest =>
    let r := splitChar c rest
    if a == c then [] :: r
    else
      match r with
      | [] => [[a]]
      | x :: xs => (a :: x) :: xs

/-- Python `s.startswith(pre)`. -/
def pyStartsWith (s pre : String) : Bool := isPrefixL pre.data s.data

/-- Python substring test `pat in s`. -/
def strContains (s pat : String) : Bool := containsSubL s.data pat.data

/-- Python `s.split('/')`. -/
def pySplitSlash (s : String) : List String := (splitChar '/' s.data).map (⟨·⟩)

/-- Python `s.lower()`. -/
def pyToLower (s : String) : String := ⟨s.data.map Char.toLower⟩

/-- Python `s.lstrip('.')`. -/
def lstripDot (s : String) : String := ⟨s.data.dropWhile (· == '.')⟩

/-- The remote error taxonomy the adapter distinguishes:
`cloudinary.exceptions.NotFound` versus every other exception. -/
inductive CloudinaryError where
  | notFound (msg : String)
  | other (msg : String)
deriving DecidableEq, Repr

/-- `str(e)` for a remote error. -/
def CloudinaryError.msg : CloudinaryError → String
  | .notFound m => m
  | .other m => m

/-- Extract the Cloudinary public id from a stored name
(`CloudinaryStorage._extract_public_id`, lines 150-193).  `folder` is the
configured `CLOUDINARY_FOLDER` (default "media").  Returns `none` exactly
when the Python code returns `None` (empty name). -/
def CloudinaryStorage.extract_public_id (folder name : String) : Option String :=
  if name = "" then none
  else if pyStartsWith name (folder ++ "/") then
    some (splitextStem name)
  else if strContains name "cloudinary.com" && decide (2 ≤ (pySplitSlash name).length) then
    let parts := pySplitSlash name
    let filename := parts.getLastD ""
    let public_id := splitextStem filename
    if 3 ≤ parts.length ∧ parts.getD (parts.length - 2) "" = (pySplitSlash folder).getLastD "" then
      some (folder ++ "/" ++ public_id)
    else
      some (folder ++ "/" ++ public_id)
  else
    let public_id := splitextStem name
    if strContains public_id "/" && !(pyStartsWith public_id folder) then
      some public_id
    else if pyStartsWith public_id folder then
      some public_id
    else
      some (folder ++ "/" ++ public_id)

/-- The fixed extension allow-list (`format_mapping`, lines 63-70),
in source order. -/
def format_mapping : List (String × String) :=
  [("jpg", "jpg"), ("jpeg", "jpg"), ("png", "png"),
   ("gif", "gif"), ("webp", "webp"), ("svg", "svg")]

/-- The `format` entry of the upload options as computed by
`CloudinaryStorage._save` (lines 61-96): first set from the lowercased,
dot-stripped file extension when it is a key of `format_mapping`, then
overwritten from the declared content type when the subtype after the
last "/" is among the VALUES of `format_mapping`.  `none` means the
`format` key is absent from the upload options. -/
def CloudinaryStorage.upload_format (name : String) (content_type : Option String) : Option String :=
  let file_ext := lstripDot (pyToLower (splitextExt name))
  let fromExt : Option String := format_mapping.lookup file_ext
  match content_type with
  | none => fromExt
  | some ct =>
    if !(ct == "") && strContains ct "/" then
      let detected_format := (pySplitSlash ct).getLastD ""
      if format_mapping.any (fun p => p.2 == detected_format) then some detected_format
      else fromExt
    else fromExt

/-- Modelled from the spec: `sanitize_filename` (imported by
`_generate_public_id` from `providers/models.py`, which is not among the
sources).  Per the spec it sanitizes illegal characters of the original
filename before the extension is stripped, and per the spec example
`save("My Logo.PNG", ...)` yields identifier `my-logo_[a-f0-9]{8}`, so it
lowercases the name and replaces every character that is not
alphanumeric, dot, underscore or hyphen (spaces, path separators, ...)
with a hyphen. -/
def sanChar (c : Char) : Char :=
  if c.toLower.isAlphanum || c.toLower == '.' || c.toLower == '_' || c.toLower == '-' then
    c.toLower
  else '-'

/-- Modelled from the spec (continued): the per-character sanitization
applied to the whole filename. -/
def sanitize_filename (s : String) : String := ⟨s.data.map sanChar⟩

/-- `CloudinaryStorage._generate_public_id` (lines 112-126): sanitize the
filename, strip the extension, append an underscore and the first eight
characters of a fresh UUID4 string.  The random part is passed in as
`uid`. -/
def CloudinaryStorage.generate_public_id (filename uid : String) : String :=
  splitextStem (sanitize_filename filename) ++ "_" ++ uid

/-- The keyword options handed to `cloudinary.uploader.upload` by
`_save` (lines 79-96).  `format = none` models the key being absent. -/
structure UploadOptions where
  public_id : String
  resource_type : String
  overwrite : Bool
  folder : String
  use_filename : Bool
  unique_filename : Bool
  format : Option String
deriving DecidableEq, Repr

/-- `CloudinaryStorage._save` (lines 39-110), with the remote `upload`
call passed in.  On upload success it returns the stored reference
`folder ++ "/" ++ public_id`; on any upload exception it re-raises a
wrapped error (modelled as `Except.error` with the wrapped message). -/
def CloudinaryStorage.save (folder name : String) (content_type : Option String)
    (uid : String) (upload : UploadOptions → Except CloudinaryError Unit) :
    Except String String :=
  let public_id := CloudinaryStorage.generate_public_id name uid
  let upload_options : UploadOptions :=
    { public_id := public_id
      resource_type := "image"
      overwrite := false
      folder := folder
      use_filename := false
      unique_filename := false
      format := CloudinaryStorage.upload_format name content_type }
  match upload upload_options with
  | .ok _ => .ok (folder ++ "/" ++ public_id)
  | .error e => .error ("Failed to upload " ++ name ++ " to Cloudinary: " ++ e.msg)

/-- `CloudinaryStorage.delete` (lines 128-148), with the remote
`cloudinary.uploader.destroy` call passed in.  The result type records
whether the operation raises: `Except.error` would be a raised
exception, and the definition mirrors the try/except structure of the
source, in which `NotFound` is passed over and every other exception is
logged and swallowed. -/
def CloudinaryStorage.delete (folder name : String)
    (destroy : String → Except CloudinaryError Unit) : Except String Unit :=
  if name = "" then .ok ()
  else
    match
      (match CloudinaryStorage.extract_public_id folder name with
       | none => Except.ok ()
       | some public_id => destroy public_id) with
    | .ok _ => .ok ()
    | .error (.notFound _) => .ok ()
    | .error (.other _) => .ok ()

/-- What `cloudinary.api.resource` reports about a resource; `size` reads
the `bytes` field with default 0 (`resource.get('bytes', 0)`). -/
structure ResourceInfo where
  bytes : Option Nat
deriving DecidableEq, Repr

/-- `CloudinaryStorage.exists` (lines 195-216), with the remote
`cloudinary.api.resource` lookup passed in. -/
def CloudinaryStorage.existsOp (folder name : String)
    (resource : String → Except CloudinaryError ResourceInfo) : Bool :=
  if name = "" then false
  else
    match CloudinaryStorage.extract_public_id folder name with
    | none => false
    | some public_id =>
      match resource public_id with
      | .ok _ => true
      | .error (.notFound _) => false
      | .error (.other _) => false

/-- `CloudinaryStorage.size` (lines 263-283), with the remote
`cloudinary.api.resource` lookup passed in. -/
def CloudinaryStorage.size (folder name : String)
    (resource : String → Except CloudinaryError ResourceInfo) : Nat :=
  if name = "" then 0
  else
    match CloudinaryStorage.extract_public_id folder name with
    | none => 0
    | some public_id =>
      match resource public_id with
      | .ok r => r.bytes.getD 0
      | .error (.notFound _) => 0
      | .error (.other _) => 0

/-- The keyword options handed to `CloudinaryImage(...).build_url` by the
three `url` methods.  `gravity`/`fetch_format` as `none` model the key
being absent from the options dict. -/
structure UrlOptions where
  secure : Bool
  resource_type : String
  quality : String
  crop : String
  width : Nat
  height : Nat
  gravity : Option String
  fetch_format : Option String
deriving DecidableEq, Repr

/-- The `build_url` invocation made by `CloudinaryStorage.url`
(lines 218-255): `none` when the method returns "" before reaching the
builder, otherwise the public id and the exact options dict of
lines 234-241 (no `gravity` key, no `fetch_format` key). -/
def CloudinaryStorage.urlCall (folder name : String) : Option (String × UrlOptions) :=
  if name = "" then none
  else
    match CloudinaryStorage.extract_public_id folder name with
    | none => none
    | some public_id =>
      some (public_id,
        { secure := true
          resource_type := "image"
          quality := "auto:good"
          crop := "limit"
          width := 2000
          height := 2000
          gravity := none
          fetch_format := none })

/-- `CloudinaryStorage.url` (lines 218-255) with the URL builder passed
in: empty name or failed extraction yields "", and any exception from
the builder is caught and mapped to "" as well. -/
def CloudinaryStorage.url (folder name : String)
    (build : String → UrlOptions → Except CloudinaryError String) : String :=
  match CloudinaryStorage.urlCall folder name with
  | none => ""
  | some (public_id, options) =>
    match build public_id options with
    | .ok u => u
    | .error _ => ""

/-- The unused `default_transformations` attribute set by
`CloudinaryMediaStorage.__init__` (lines 295-301); it does contain a
`fetch_format: auto` entry, but the `url` method below never reads it. -/
def CloudinaryMediaStorage.default_transformations : List (String × String) :=
  [("quality", "auto:good"), ("fetch_format", "auto"), ("crop", "limit"),
   ("width", "2000"), ("height", "2000")]

/-- The `build_url` invocation made by `CloudinaryMediaStorage.url`
(lines 303-336): the options dict of lines 316-323, which the source
comment describes as "without fetch_format". -/
def CloudinaryMediaStorage.urlCall (folder name : String) : Option (String × UrlOptions) :=
  if name = "" then none
  else
    match CloudinaryStorage.extract_public_id folder name with
    | none => none
    | some public_id =>
      some (public_id,
        { secure := true
          resource_type := "image"
          quality := "auto:good"
          crop := "limit"
          width := 2000
          height := 2000
          gravity := none
          fetch_format := none })

/-- `CloudinaryMediaStorage.url` (lines 303-336) with the URL builder
passed in. -/
def CloudinaryMediaStorage.url (folder name : String)
    (build : String → UrlOptions → Except CloudinaryError String) : String :=
  match CloudinaryMediaStorage.urlCall folder name with
  | none => ""
  | some (public_id, options) =>
    match build public_id options with
    | .ok u => u
    | .error _ => ""

/-- The unused `thumbnail_transformations` attribute set by
`CloudinaryThumbnailStorage.__init__` (lines 348-355); it does contain a
`fetch_format: auto` entry, but the `url` method below never reads it. -/
def CloudinaryThumbnailStorage.thumbnail_transformations : List (String × String) :=
  [("quality", "auto:good"), ("fetch_format", "auto"), ("crop", "fill"),
   ("width", "300"), ("height", "300"), ("gravity", "auto")]

/-- The `build_url` invocation made by `CloudinaryThumbnailStorage.url`
(lines 357-391): the options dict of lines 370-378, which the source
comment describes as "without fetch_format". -/
def CloudinaryThumbnailStorage.urlCall (folder name : String) : Option (String × UrlOptions) :=
  if name = "" then none
  else
    match CloudinaryStorage.extract_public_id folder name with
    | none => none
    | some public_id =>
      some (public_id,
        { secure := true
          resource_type := "image"
          quality := "auto:good"
          crop := "fill"
          width := 300
          height := 300
          gravity := some "auto"
          fetch_format := none })

/-- `CloudinaryThumbnailStorage.url` (lines 357-391) with the URL builder
passed in. -/
def CloudinaryThumbnailStorage.url (folder name : String)
    (build : String → UrlOptions → Except CloudinaryError String) : String :=
  match CloudinaryThumbnailStorage.urlCall folder name with
  | none => ""
  | some (public_id, options) =>
    match build public_id options with
    | .ok u => u
    | .error _ => ""

/-- Lowercase hexadecimal digit, the alphabet of the first eight
characters of a `str(uuid.uuid4())` value. -/
def isLowerHex (c : Char) : Bool :=
  (decide ('0' ≤ c) && decide (c ≤ '9')) || (decide ('a' ≤ c) && decide (c ≤ 'f'))

theorem string_ne_empty_iff (s : String) : s ≠ "" ↔ s.data ≠ [] := by
  rw [ne_eq, String.ext_iff]

theorem append_ne_empty_of_left (a b : String) (h : a ≠ "") : a ++ b ≠ "" := by
  rw [string_ne_empty_iff] at h ⊢
  rw [String.data_append]
  simp [h]

theorem append_ne_empty_of_right (a b : String) (h : b ≠ "") : a ++ b ≠ "" := by
  rw [string_ne_empty_iff] at h ⊢
  rw [String.data_append]
  simp [h]

theorem any_take_pos {p : Char → Bool} (l : List Char) (n : Nat)
    (h : ((l.take n).any p) = true) : 0 < n := by
  rcases Nat.eq_zero_or_pos n with hz | hp
  · subst hz
    simp at h
  · exact hp

theorem splitextDot_pos (l : List Char) (d : Nat) (h : splitextDot l = some d) : 0 < d := by
  unfold splitextDot at h
  split at h
  · exact absurd h (by simp)
  · split at h
    · split at h
      · injection h with h
        subst h
        exact any_take_pos _ _ (by assumption)
      · exact absurd h (by simp)
    · split at h
      · split at h
        · injection h with h
          omega
        · exact absurd h (by simp)
      · exact absurd h (by simp)

theorem splitextStemL_ne_nil (l : List Char) (h : l ≠ []) : splitextStemL l ≠ [] := by
  unfold splitextStemL
  split
  · exact h
  · rename_i d hd
    have hpos := splitextDot_pos l d hd
    rw [ne_eq, List.take_eq_nil_iff]
    push_neg
    exact ⟨by omega, h⟩

theorem splitextStem_ne_empty (s : String) (h : s ≠ "") : splitextStem s ≠ "" := by
  rw [string_ne_empty_iff] at h ⊢
  exact splitextStemL_ne_nil s.data h

theorem extract_public_id_getD (folder name : String) (h : name ≠ "") :
    (CloudinaryStorage.extract_public_id folder name).getD "" ≠ "" := by
  unfold CloudinaryStorage.extract_public_id
  rw [if_neg h]
  have hslash : ("/" : String) ≠ "" := by decide
  split
  · exact splitextStem_ne_empty name h
  · split
    · dsimp only
      split
      · exact append_ne_empty_of_left _ _ (append_ne_empty_of_right _ _ hslash)
      · exact append_ne_empty_of_left _ _ (append_ne_empty_of_right _ _ hslash)
    · dsimp only
      split
      · exact splitextStem_ne_empty name h
      · split
        · exact splitextStem_ne_empty name h
        · exact append_ne_empty_of_left _ _ (append_ne_empty_of_right _ _ hslash)

theorem extract_public_id_some (folder name : String) (h : name ≠ "") :
    ∃ pid, CloudinaryStorage.extract_public_id folder name = some pid ∧ pid ≠ "" := by
  have hg := extract_public_id_getD folder name h
  cases heq : CloudinaryStorage.extract_public_id folder name with
  | none => rw [heq] at hg; exact absurd rfl hg
  | some pid =>
    rw [heq] at hg
    exact ⟨pid, rfl, hg⟩

theorem str_append_assoc (a b c : String) : (a ++ b) ++ c = a ++ (b ++ c) := by
  apply String.ext
  simp [String.data_append, List.append_assoc]

theorem sanChar_ne_slash (c : Char) : (sanChar c != '/') = true := by
  unfold sanChar
  split
  · rename_i hcond
    rw [bne_iff_ne]
    intro hEq
    rw [hEq] at hcond
    exact absurd hcond (by decide)
  · decide

theorem sanitize_filename_no_slash (s : String) :
    ((sanitize_filename s).data.all (· != '/')) = true := by
  show ((s.data.map sanChar).all (· != '/')) = true
  rw [List.all_map]
  apply List.all_eq_true.mpr
  intro c _
  exact sanChar_ne_slash c

theorem splitextStemL_all (p : Char → Bool) (l : List Char) (h : l.all p = true) :
    (splitextStemL l).all p = true := by
  unfold splitextStemL
  split
  · exact h
  · rw [List.all_eq_true] at h ⊢
    intro x hx
    exact h x (List.take_subset _ _ hx)

theorem lastIdxOf_eq_none (l : List Char) (c : Char) (h : l.all (· != c) = true) :
    lastIdxOf l c = none := by
  induction l with
  | nil => rfl
  | cons a rest ih =>
    rw [List.all_cons, Bool.and_eq_true] at h
    unfold lastIdxOf
    rw [ih h.2]
    have hne : ¬ a = c := by
      have h1 := h.1
      rwa [bne_iff_ne] at h1
    rw [if_neg hne]

theorem splitextExt_of_no_dot (s : String) (h : (s.data.all (· != '.')) = true) :
    splitextExt s = "" := by
  have hd : splitextDot s.data = none := by
    unfold splitextDot
    rw [lastIdxOf_eq_none s.data '.' h]
  show (⟨splitextExtL s.data⟩ : String) = ""
  unfold splitextExtL
  rw [hd]

theorem isLowerHex_ne_slash (c : Char) (h : isLowerHex c = true) : (c != '/') = true := by
  rw [bne_iff_ne]
  rintro rfl
  exact absurd h (by decide)

theorem isLowerHex_ne_dot (c : Char) (h : isLowerHex c = true) : (c != '.') = true := by
  rw [bne_iff_ne]
  rintro rfl
  exact absurd h (by decide)

theorem all_hex_all_ne_slash (l : List Char) (h : l.all isLowerHex = true) :
    (l.all (· != '/')) = true :=
  List.all_eq_true.mpr fun c hc => isLowerHex_ne_slash c (List.all_eq_true.mp h c hc)

theorem all_hex_all_ne_dot (l : List Char) (h : l.all isLowerHex = true) :
    (l.all (· != '.')) = true :=
  List.all_eq_true.mpr fun c hc => isLowerHex_ne_dot c (List.all_eq_true.mp h c hc)

theorem delete_ok (folder name : String) (destroy : String → Except CloudinaryError Unit) :
    CloudinaryStorage.delete folder name destroy = Except.ok () := by
  unfold CloudinaryStorage.delete
  split
  · rfl
  · split
    · rfl
    · rfl
    · rfl

/-- Claim C10: for every non-empty input string, identifier extraction
returns a non-empty string (never `none` and never ""), and the URL
builder call of the base `url` method is therefore reached (the
extraction-failed fallback is unreachable for non-empty references). -/
theorem claim_extraction_nonempty (folder name : String) (h : name ≠ "") :
    (∃ pid, CloudinaryStorage.extract_public_id folder name = some pid ∧ pid ≠ "") ∧
    CloudinaryStorage.urlCall folder name ≠ none := by
  obtain ⟨pid, hp, hne⟩ := extract_public_id_some folder name h
  refine ⟨⟨pid, hp, hne⟩, ?_⟩
  unfold CloudinaryStorage.urlCall
  rw [if_neg h, hp]
  simp

/-- Witness for C10 at the concrete reference "abc123.png". -/
theorem claim_extraction_nonempty_witness :
    (∃ pid, CloudinaryStorage.extract_public_id "media" "abc123.png" = some pid ∧ pid ≠ "") ∧
    CloudinaryStorage.urlCall "media" "abc123.png" ≠ none :=
  claim_extraction_nonempty "media" "abc123.png" (by decide)

/-- Claim C7: for the empty reference, `url` returns "", `exists` returns
false, `size` returns 0 and `delete` is a no-op, in every case before any
remote call: the results hold for every remote behavior whatsoever, and
the `build_url` invocation of `url` is never made. -/
theorem claim_empty_reference (folder : String)
    (build : String → UrlOptions → Except CloudinaryError String)
    (resource : String → Except CloudinaryError ResourceInfo)
    (destroy : String → Except CloudinaryError Unit) :
    CloudinaryStorage.url folder "" build = "" ∧
    CloudinaryStorage.existsOp folder "" resource = false ∧
    CloudinaryStorage.size folder "" resource = 0 ∧
    CloudinaryStorage.delete folder "" destroy = Except.ok () ∧
    CloudinaryStorage.urlCall folder "" = none :=
  ⟨rfl, rfl, rfl, rfl, rfl⟩

/-- Claim C5: `delete` never raises, whatever the reference and whatever
the remote destroy call does (success, not-found, or any other failure),
and a `delete` followed by another `delete` of the same reference (with
possibly different remote behavior the second time) never raises
either. -/
theorem claim_delete_never_raises (folder name : String)
    (destroy₁ destroy₂ : String → Except CloudinaryError Unit) :
    CloudinaryStorage.delete folder name destroy₁ = Except.ok () ∧
    (CloudinaryStorage.delete folder name destroy₁ >>= fun _ =>
      CloudinaryStorage.delete folder name destroy₂) = Except.ok () := by
  refine ⟨delete_ok folder name destroy₁, ?_⟩
  rw [delete_ok folder name destroy₁]
  show CloudinaryStorage.delete folder name destroy₂ = Except.ok ()
  exact delete_ok folder name destroy₂

/-- Claim C6: when the remote call fails (with either error kind), `save`
propagates a raised, wrapped upload error, while `exists` returns false,
`size` returns 0 and `url` returns "" — the absent sentinels — and none
of the three raises. -/
theorem claim_remote_failure_mapping (folder name uid : String) (ct : Option String)
    (e : CloudinaryError) :
    CloudinaryStorage.save folder name ct uid (fun _ => Except.error e) =
      Except.error ("Failed to upload " ++ name ++ " to Cloudinary: " ++ e.msg) ∧
    CloudinaryStorage.existsOp folder name (fun _ => Except.error e) = false ∧
    CloudinaryStorage.size folder name (fun _ => Except.error e) = 0 ∧
    CloudinaryStorage.url folder name (fun _ _ => Except.error e) = "" := by
  refine ⟨rfl, ?_, ?_, ?_⟩
  · unfold CloudinaryStorage.existsOp
    split
    · rfl
    · split
      · rfl
      · cases e <;> rfl
  · unfold CloudinaryStorage.size
    split
    · rfl
    · split
      · rfl
      · cases e <;> rfl
  · unfold CloudinaryStorage.url
    split
    · rfl
    · rfl

/-- Claim C9: the media-specialized variant's `url` is observationally
equivalent to the base adapter's `url`: for every folder, name and URL
builder it returns the same string, and it issues the identical builder
invocation (same public id, same options). -/
theorem claim_media_equals_base (folder name : String)
    (build : String → UrlOptions → Except CloudinaryError String) :
    CloudinaryMediaStorage.url folder name build = CloudinaryStorage.url folder name build ∧
    CloudinaryMediaStorage.urlCall folder name = CloudinaryStorage.urlCall folder name :=
  ⟨rfl, rfl⟩

/-- Claim C8: for every non-empty reference, the thumbnail variant passes
`width=300, height=300, crop="fill", gravity="auto"` to the URL builder,
and the base variant passes `width=2000, height=2000, crop="limit"` with
no format-negotiation (`fetch_format`) parameter. -/
theorem claim_url_transformations (folder name : String) (h : name ≠ "") :
    ∃ pid,
      CloudinaryThumbnailStorage.urlCall folder name =
        some (pid,
          { secure := true, resource_type := "image", quality := "auto:good",
            crop := "fill", width := 300, height := 300,
            gravity := some "auto", fetch_format := none }) ∧
      CloudinaryStorage.urlCall folder name =
        some (pid,
          { secure := true, resource_type := "image", quality := "auto:good",
            crop := "limit", width := 2000, height := 2000,
            gravity := none, fetch_format := none }) := by
  obtain ⟨pid, hp, _⟩ := extract_public_id_some folder name h
  refine ⟨pid, ?_, ?_⟩
  · unfold CloudinaryThumbnailStorage.urlCall
    rw [if_neg h, hp]
  · unfold CloudinaryStorage.urlCall
    rw [if_neg h, hp]

/-- Witness for C8 at the concrete reference "media/abc". -/
theorem claim_url_transformations_witness :
    ∃ pid,
      CloudinaryThumbnailStorage.urlCall "media" "media/abc" =
        some (pid,
          { secure := true, resource_type := "image", quality := "auto:good",
            crop := "fill", width := 300, height := 300,
            gravity := some "auto", fetch_format := none }) ∧
      CloudinaryStorage.urlCall "media" "media/abc" =
        some (pid,
          { secure := true, resource_type := "image", quality := "auto:good",
            crop := "limit", width := 2000, height := 2000,
            gravity := none, fetch_format := none }) :=
  claim_url_transformations "media" "media/abc" (by decide)

/-- Counterexample to claim C1: at the concrete stored reference
"media/abc" the thumbnail variant's `url` method does reach the URL
builder, but the options it passes contain NO `fetch_format` entry (the
source builds the dict of lines 370-378 "without fetch_format"), even
though the unused `thumbnail_transformations` attribute of the class
does list `fetch_format: auto`. -/
theorem counter_thumbnail_fetch_format :
    (∃ c, CloudinaryThumbnailStorage.urlCall "media" "media/abc" = some c ∧
      c.2.fetch_format ≠ some "auto") ∧
    CloudinaryThumbnailStorage.thumbnail_transformations.lookup "fetch_format" = some "auto" :=
  ⟨⟨("media/abc",
      { secure := true, resource_type := "image", quality := "auto:good",
        crop := "fill", width := 300, height := 300,
        gravity := some "auto", fetch_format := none }), rfl, by simp⟩, rfl⟩

/-- Claim C1 as amended: for every non-empty stored reference, NONE of
the three variants' `url` operations passes a `fetch_format` parameter
to the URL builder: the thumbnail and media classes store a
`fetch_format: auto` entry in an unused attribute, but their `url`
methods, like the base one, build the options without it. -/
theorem claim_no_fetch_format_anywhere (folder name : String) (h : name ≠ "") :
    ∃ c₁ c₂ c₃,
      CloudinaryThumbnailStorage.urlCall folder name = some c₁ ∧
        c₁.2.fetch_format = none ∧
      CloudinaryMediaStorage.urlCall folder name = some c₂ ∧
        c₂.2.fetch_format = none ∧
      CloudinaryStorage.urlCall folder name = some c₃ ∧
        c₃.2.fetch_format = none := by
  obtain ⟨pid, hp, _⟩ := extract_public_id_some folder name h
  refine
    ⟨(pid,
      { secure := true, resource_type := "image", quality := "auto:good",
        crop := "fill", width := 300, height := 300,
        gravity := some "auto", fetch_format := none }),
     (pid,
      { secure := true, resource_type := "image", quality := "auto:good",
        crop := "limit", width := 2000, height := 2000,
        gravity := none, fetch_format := none }),
     (pid,
      { secure := true, resource_type := "image", quality := "auto:good",
        crop := "limit", width := 2000, height := 2000,
        gravity := none, fetch_format := none }),
     ?_, rfl, ?_, rfl, ?_, rfl⟩
  · unfold CloudinaryThumbnailStorage.urlCall
    rw [if_neg h, hp]
  · unfold CloudinaryMediaStorage.urlCall
    rw [if_neg h, hp]
  · unfold CloudinaryStorage.urlCall
    rw [if_neg h, hp]

/-- Witness for the amended C1 at the concrete reference "media/abc". -/
theorem claim_no_fetch_format_anywhere_witness :
    ∃ c₁ c₂ c₃,
      CloudinaryThumbnailStorage.urlCall "media" "media/abc" = some c₁ ∧
        c₁.2.fetch_format = none ∧
      CloudinaryMediaStorage.urlCall "media" "media/abc" = some c₂ ∧
        c₂.2.fetch_format = none ∧
      CloudinaryStorage.urlCall "media" "media/abc" = some c₃ ∧
        c₃.2.fetch_format = none :=
  claim_no_fetch_format_anywhere "media" "media/abc" (by decide)

/-- Counterexample to claim C2: on a full hosted URL whose host is not a
`cloudinary.com` host — an instance of the claim's schematic input
"https://host/.../v1/folder/abc123.png" — extraction does NOT yield
"folder/abc123": the URL branch of `_extract_public_id` only fires when
the name contains the substring "cloudinary.com", so the whole URL minus
its extension is returned instead. -/
theorem counter_extraction_hosted_url :
    CloudinaryStorage.extract_public_id "folder" "https://host/img/v1/folder/abc123.png" =
      some "https://host/img/v1/folder/abc123" ∧
    ("https://host/img/v1/folder/abc123" : String) ≠ "folder/abc123" := by
  constructor
  · decide
  · decide

/-- Claim C2 as amended: identifier extraction maps the three historical
stored-reference formats to the same identifier when the full-URL format
is a Cloudinary-hosted URL (containing "cloudinary.com", the only hosted
format this system ever wrote): with folder "folder", the references
"folder/abc123", a hosted URL ending in ".../v1/folder/abc123.png", and
"abc123.png" all extract to "folder/abc123". -/
theorem claim_extraction_three_formats :
    CloudinaryStorage.extract_public_id "folder" "folder/abc123" = some "folder/abc123" ∧
    CloudinaryStorage.extract_public_id "folder"
      "https://res.cloudinary.com/demo/image/upload/v1/folder/abc123.png" =
        some "folder/abc123" ∧
    CloudinaryStorage.extract_public_id "folder" "abc123.png" = some "folder/abc123" := by
  refine ⟨by decide, by decide, by decide⟩

/-- Counterexample to claim C3: with filename "file.png" and declared
media type "image/jpeg" the upload format stays "png" (the
extension-derived value): the media-type override tests the subtype
against the VALUES of the allow-list mapping, and "jpeg" is a key
(mapped to "jpg") but not a value, so `image/jpeg` does not override the
extension, contrary to the claim's example. -/
theorem counter_upload_format_jpeg :
    CloudinaryStorage.upload_format "file.png" (some "image/jpeg") = some "png" ∧
    ("png" : String) ≠ "jpg" ∧ ("png" : String) ≠ "jpeg" := by
  refine ⟨by decide, by decide, by decide⟩

/-- Claim C3 as amended: in `save`, the upload format is determined from
the filename extension via the fixed allow-list mapping
jpg→jpg, jpeg→jpg, png→png, gif→gif, webp→webp, svg→svg; a declared
media type containing "/" overrides the extension-derived format exactly
when its subtype (the segment after the last "/") is one of the OUTPUT
values of the mapping — jpg, png, gif, webp, svg — and is ignored
otherwise (in particular `image/jpeg` does not override, since "jpeg" is
an allow-list key but not an output value). -/
theorem claim_upload_format_preference (name ct : String) (hct : ct ≠ "")
    (hslash : strContains ct "/" = true) :
    (format_mapping.any (fun p => p.2 == (pySplitSlash ct).getLastD "") = true →
      CloudinaryStorage.upload_format name (some ct) =
        some ((pySplitSlash ct).getLastD "")) ∧
    (format_mapping.any (fun p => p.2 == (pySplitSlash ct).getLastD "") = false →
      CloudinaryStorage.upload_format name (some ct) =
        CloudinaryStorage.upload_format name none) ∧
    CloudinaryStorage.upload_format name none =
      format_mapping.lookup (lstripDot (pyToLower (splitextExt name))) := by
  have hcond : (!(ct == "") && strContains ct "/") = true := by
    rw [hslash]
    simp [hct]
  refine ⟨fun hany => ?_, fun hany => ?_, rfl⟩
  · show (if (!(ct == "") && strContains ct "/") = true then
        if format_mapping.any (fun p => p.2 == (pySplitSlash ct).getLastD "") = true then
          some ((pySplitSlash ct).getLastD "")
        else format_mapping.lookup (lstripDot (pyToLower (splitextExt name)))
      else format_mapping.lookup (lstripDot (pyToLower (splitextExt name)))) =
      some ((pySplitSlash ct).getLastD "")
    rw [if_pos hcond, if_pos hany]
  · show (if (!(ct == "") && strContains ct "/") = true then
        if format_mapping.any (fun p => p.2 == (pySplitSlash ct).getLastD "") = true then
          some ((pySplitSlash ct).getLastD "")
        else format_mapping.lookup (lstripDot (pyToLower (splitextExt name)))
      else format_mapping.lookup (lstripDot (pyToLower (splitextExt name)))) =
      CloudinaryStorage.upload_format name none
    rw [if_pos hcond, if_neg (by rw [hany]; exact Bool.false_ne_true)]
    rfl

/-- Witness for the amended C3: filename "file.png" with declared media
type "image/webp" uploads with format "webp" (subtype is an output
value, so it overrides the extension), and with no media type the
extension rules. -/
theorem claim_upload_format_preference_witness :
    (format_mapping.any (fun p => p.2 == (pySplitSlash "image/webp").getLastD "") = true →
      CloudinaryStorage.upload_format "file.png" (some "image/webp") =
        some ((pySplitSlash "image/webp").getLastD "")) ∧
    (format_mapping.any (fun p => p.2 == (pySplitSlash "image/webp").getLastD "") = false →
      CloudinaryStorage.upload_format "file.png" (some "image/webp") =
        CloudinaryStorage.upload_format "file.png" none) ∧
    CloudinaryStorage.upload_format "file.png" none =
      format_mapping.lookup (lstripDot (pyToLower (splitextExt "file.png"))) :=
  claim_upload_format_preference "file.png" "image/webp" (by decide) (by decide)

/-- Counterexample to claim C4: for the non-empty filename "a.b.png" a
successful save returns the reference "media/a.b_12345678" whose
identifier "a.b_12345678" DOES carry a file extension in the adapter's
own `os.path.splitext` sense (".b_12345678"), and consequently the
reference does not survive the adapter's identifier extraction, which
truncates it to "media/a". -/
theorem counter_save_reference_extension :
    CloudinaryStorage.save "media" "a.b.png" none "12345678" (fun _ => Except.ok ()) =
      Except.ok "media/a.b_12345678" ∧
    splitextExt "a.b_12345678" = ".b_12345678" ∧
    CloudinaryStorage.extract_public_id "media" "media/a.b_12345678" = some "media/a" := by
  refine ⟨rfl, by decide, by decide⟩

/-- Claim C4 as amended: for every non-empty filename and every
8-character lowercase-hex random suffix, a successful save returns
`{folder}/{identifier}` with `identifier = stem ++ "_" ++ suffix`; the
identifier never contains a path separator, and whenever the sanitized,
extension-stripped stem contains no dot (every single-extension
filename) the identifier contains no extension at all; in particular
with folder "media", `save("My Logo.PNG", ...)` yields
`media/my-logo_{suffix}`. -/
theorem claim_save_reference_shape (folder name uid : String) (ct : Option String)
    (_hn : name ≠ "") (_hu8 : uid.length = 8)
    (huhex : uid.data.all isLowerHex = true) :
    CloudinaryStorage.save folder name ct uid (fun _ => Except.ok ()) =
      Except.ok (folder ++ "/" ++ CloudinaryStorage.generate_public_id name uid) ∧
    CloudinaryStorage.generate_public_id name uid =
      splitextStem (sanitize_filename name) ++ "_" ++ uid ∧
    ((CloudinaryStorage.generate_public_id name uid).data.all (· != '/')) = true ∧
    (((splitextStem (sanitize_filename name)).data.all (· != '.')) = true →
      splitextExt (CloudinaryStorage.generate_public_id name uid) = "") ∧
    CloudinaryStorage.save "media" "My Logo.PNG" ct uid (fun _ => Except.ok ()) =
      Except.ok ("media/my-logo_" ++ uid) := by
  have hdata : (CloudinaryStorage.generate_public_id name uid).data =
      ((splitextStem (sanitize_filename name)).data ++ "_".data) ++ uid.data := by
    show ((splitextStem (sanitize_filename name) ++ "_") ++ uid).data = _
    rw [String.data_append, String.data_append]
  refine ⟨rfl, rfl, ?_, fun hdot => ?_, ?_⟩
  · rw [hdata]
    simp only [List.all_append, Bool.and_eq_true]
    exact ⟨⟨splitextStemL_all _ _ (sanitize_filename_no_slash name), by decide⟩,
      all_hex_all_ne_slash uid.data huhex⟩
  · apply splitextExt_of_no_dot
    rw [hdata]
    simp only [List.all_append, Bool.and_eq_true]
    exact ⟨⟨hdot, by decide⟩, all_hex_all_ne_dot uid.data huhex⟩
  · have hgen : CloudinaryStorage.generate_public_id "My Logo.PNG" uid =
        "my-logo_" ++ uid := rfl
    show Except.ok ("media" ++ "/" ++ CloudinaryStorage.generate_public_id "My Logo.PNG" uid) =
      Except.ok ("media/my-logo_" ++ uid)
    rw [hgen, ← str_append_assoc]
    rfl

/-- Witness for the amended C4 at filename "My Logo.PNG" with the
concrete suffix "0a1b2c3d". -/
theorem claim_save_reference_shape_witness :
    CloudinaryStorage.save "media" "My Logo.PNG" none "0a1b2c3d" (fun _ => Except.ok ()) =
      Except.ok ("media" ++ "/" ++ CloudinaryStorage.generate_public_id "My Logo.PNG" "0a1b2c3d") ∧
    CloudinaryStorage.generate_public_id "My Logo.PNG" "0a1b2c3d" =
      splitextStem (sanitize_filename "My Logo.PNG") ++ "_" ++ "0a1b2c3d" ∧
    ((CloudinaryStorage.generate_public_id "My Logo.PNG" "0a1b2c3d").data.all (· != '/')) = true ∧
    (((splitextStem (sanitize_filename "My Logo.PNG")).data.all (· != '.')) = true →
      splitextExt (CloudinaryStorage.generate_public_id "My Logo.PNG" "0a1b2c3d") = "") ∧
    CloudinaryStorage.save "media" "My Logo.PNG" none "0a1b2c3d" (fun _ => Except.ok ()) =
      Except.ok ("media/my-logo_" ++ "0a1b2c3d") :=
  claim_save_reference_shape "media" "My Logo.PNG" "0a1b2c3d" none
    (by decide) (by decide) (by decide)
